import Mathlib

/-
  Verification development for `generate_transaction_uat_data.py`, a single
  linear script that synthesizes a seeded, intentionally imperfect relational
  dataset (Categories, Suppliers, Customers, Products) for UAT pipelines.

  The script is embedded shallowly: each `random`/`faker` call site becomes an
  explicit draw parameter (for per-row properties) or a pure state-threaded
  generator (for whole-run determinism); machine floats are modelled by `ℚ`
  (Python's `random.random()` returns k/2^53 ∈ [0,1), exactly representable);
  database effects (bulk inserts, commits) become an explicit event list.
-/

/- Python string helpers, modelled character-by-character.
   `pySplit` is `str.split()` with no separator: split on whitespace runs,
   dropping empty tokens.  `pyLower` is `str.lower()`, `pyTake s n` is `s[:n]`. -/

def splitWsAux : List Char → List Char → List String
  | [], cur => if cur.isEmpty then [] else [String.mk cur.reverse]
  | c :: rest, cur =>
    if c.isWhitespace then
      (if cur.isEmpty then [] else [String.mk cur.reverse]) ++ splitWsAux rest []
    else splitWsAux rest (c :: cur)

def pySplit (s : String) : List String := splitWsAux s.data []

def pyLower (s : String) : String := String.mk (s.data.map Char.toLower)

def pyTake (s : String) (n : Nat) : String := String.mk (s.data.take n)

/- Python `str.title()`: upper-case the first letter of each alphabetic run,
   lower-case the rest (used by `generate_supplier_name`). -/
def pyTitleAux : List Char → Bool → List Char
  | [], _ => []
  | c :: rest, atWordStart =>
    if c.isAlpha then
      (if atWordStart then c.toUpper else c.toLower) :: pyTitleAux rest false
    else c :: pyTitleAux rest true

def pyTitle (s : String) : String := String.mk (pyTitleAux s.data true)

/- Substring test, used to state that an error message names a setting. -/
def charsContain (hay pat : List Char) : Bool :=
  match hay with
  | [] => pat.isEmpty
  | _ :: rest => pat.isPrefixOf hay || charsContain rest pat

def strContains (hay pat : String) : Bool := charsContain hay.data pat.data

/- CONFIG constants, from the script header (lines 10-14). -/

def BATCH_SIZE : Nat := 10000

def CUSTOMERS_TOTAL : Nat := 900000

def PRODUCTS_TOTAL : Nat := 150000

def COMMIT_EVERY_N_BATCHES : Nat := 10

/- CONSTANT DATA (lines 42-74) and the inline customer email domain list
   (lines 221-223) and categories seed data (lines 129-138). -/

def PRODUCT_NAMES : List String := [
  "Wireless Bluetooth Headphones",
  "USB-C Charging Cable",
  "Portable Power Bank",
  "Laptop Stand",
  "Wireless Mouse",
  "Stainless Steel Water Bottle",
  "Coffee Maker",
  "Blender",
  "Non-Stick Frying Pan",
  "Kitchen Knife Set",
  "Cotton T-Shirt",
  "Denim Jeans",
  "Running Shoes",
  "Winter Jacket",
  "Baseball Cap",
  "Electric Toothbrush",
  "Yoga Mat",
  "Resistance Bands",
  "Face Moisturizer",
  "Shampoo & Conditioner Set",
  "Notebook Set",
  "Ballpoint Pens (Pack of 10)",
  "Desk Organizer",
  "Sticky Notes",
  "Printer Paper (500 Sheets)"]

def SUPPLIER_SUFFIXES : List String :=
  ["LLC", "Ltd", "PLC", "Inc", "Corp", "Co", "Group", "Industries", ""]

def SUPPLIER_TYPES : List String :=
  ["Electronics", "Distribution", "Supply", "Manufacturing", "Trading",
   "Global", "International", "Wholesale", "Solutions", "Technologies"]

def EMAIL_DOMAINS : List String :=
  ["gmail.com", "yahoo.com", "outlook.com", "hotmail.com", "email.com", "mail.com"]

def categories_data : List (String × String) := [
  ("Electronics", "Electronic devices and accessories"),
  ("Clothing", "Apparel and fashion items"),
  ("Food", "Food and beverages"),
  ("Books", "Books and publications"),
  ("Toys", "Toys and games"),
  ("Sports", "Sports equipment and gear"),
  ("Home", "Home and garden products"),
  ("Beauty", "Beauty and personal care")]

/- Row shapes, one field per inserted column (surrogate keys are assigned by
   the database, so they do not appear here).  Datetimes are abstract `Int`
   timestamps; `UnitPrice` is `ℚ`. -/

structure CustomerRow where
  customer_name : Option String
  email : String
  phone : String
  country : String
  created_date : Int
  is_active : Nat
deriving Repr, DecidableEq

structure ProductRow where
  product_name : Option String
  category_id : Nat
  supplier_id : Nat
  unit_price : ℚ
  stock_quantity : Int
  created_date : Int
deriving Repr, DecidableEq

structure SupplierRow where
  supplier_name : String
  contact_name : String
  country : String
  phone : String
deriving Repr, DecidableEq

instance : Inhabited ProductRow := ⟨⟨none, 0, 0, 0, 0, 0⟩⟩

instance : Inhabited CustomerRow := ⟨⟨none, "", "", "", 0, 0⟩⟩

/- Per-row draw records: one field per `random`/`faker` call site in the row
   body, so each Bernoulli gate keeps its source comparison (`random.random()
   < p`) and each `randint(a,b)` draw is a uniform `Fin (b+1-a)` offset. -/

structure CustomerDraws where
  r_name : ℚ
  fake_email1 : String
  full_name : String
  r_email : ℚ
  domain_idx : Fin 6
  fake_email2 : String
  r_date : ℚ
  future_date : Int
  past_date : Int
  phone : String
  country : String
  is_active : Fin 2

structure ProductDraws where
  r_name : ℚ
  r_price : ℚ
  price_u : ℚ
  r_stock : ℚ
  stock_def_draw : Fin 100
  stock_draw : Fin 1001
  supplier_draw : Fin 6000
  category_draw : Fin 8
  created_date : Int

/- CPython's `random.uniform(a, b)` is `a + (b-a) * random.random()` with
   `random.random()` ∈ [0,1); `u` stands for that unit draw. -/
def pyUniformVal (a b u : ℚ) : ℚ := a + (b - a) * u

/- One customer row, embedding lines 204-241 of the script. -/
def customers_row (d : CustomerDraws) : CustomerRow :=
  let ne : Option String × String :=
    if d.r_name < 5 / 1000 then
      (none, d.fake_email1)
    else
      let customer_name := d.full_name
      let name_parts := pySplit (pyLower customer_name)
      if 2 ≤ name_parts.length then
        let first_name := name_parts.headD ""
        let last_name := name_parts.getLastD ""
        if d.r_email < 1 / 100 then
          (some customer_name, first_name ++ "." ++ last_name ++ "@invalid")
        else
          (some customer_name,
            first_name ++ "." ++ last_name ++ "@" ++ EMAIL_DOMAINS.getD d.domain_idx.val "")
      else (some customer_name, d.fake_email2)
  { customer_name := ne.1
    email := ne.2
    phone := pyTake d.phone 20
    country := pyTake d.country 100
    created_date := if d.r_date < 1 / 100 then d.future_date else d.past_date
    is_active := d.is_active.val }

/- One product row at index `i` within its batch, embedding lines 284-314. -/
def products_row (i : Nat) (d : ProductDraws) : ProductRow :=
  { product_name :=
      if d.r_name < 2 / 1000 then none
      else some (PRODUCT_NAMES.getD (i % PRODUCT_NAMES.length) "")
    unit_price :=
      if d.r_price < 5 / 1000 then -(pyUniformVal 10 1000 d.price_u)
      else pyUniformVal 5 2000 d.price_u
    stock_quantity :=
      if d.r_stock < 1 / 100 then -((1 : Int) + d.stock_def_draw.val)
      else (d.stock_draw.val : Int)
    supplier_id := 1 + d.supplier_draw.val
    category_id := 1 + d.category_draw.val
    created_date := d.created_date }

/- The value set of Python's `random.randint(a, b)` (both endpoints valid). -/
def randintSet (a b : Nat) : Finset Nat := Finset.Icc a b

/- Batch loader (lines 198-201, 278-281): `total // BATCH_SIZE` batches of
   exactly `BATCH_SIZE` generated rows; `total_inserted` accumulates the length
   of every submitted batch. -/

def total_batches (total batch_size : Nat) : Nat := total / batch_size

def customers_batch (batch_size : Nat) (draws : Nat → CustomerDraws) : List CustomerRow :=
  (List.range batch_size).map (fun k => customers_row (draws k))

def customers_batches (total batch_size : Nat) (draws : Nat → Nat → CustomerDraws) :
    List (List CustomerRow) :=
  (List.range (total_batches total batch_size)).map (fun bn => customers_batch batch_size (draws bn))

def customers_total_inserted (total batch_size : Nat) (draws : Nat → Nat → CustomerDraws) : Nat :=
  ((customers_batches total batch_size draws).map List.length).sum

def products_batch (batch_size : Nat) (draws : Nat → ProductDraws) : List ProductRow :=
  (List.range batch_size).map (fun i => products_row i (draws i))

def products_batches (total batch_size : Nat) (draws : Nat → Nat → ProductDraws) :
    List (List ProductRow) :=
  (List.range (total_batches total batch_size)).map (fun bn => products_batch batch_size (draws bn))

def products_total_inserted (total batch_size : Nat) (draws : Nat → Nat → ProductDraws) : Nat :=
  ((products_batches total batch_size draws).map List.length).sum

/- Database events of a batched loading phase.  `commit_periodically`
   (lines 90-94) emits a commit exactly when `(batch_num + 1) %
   COMMIT_EVERY_N_BATCHES == 0`; the loop body (lines 243-252, 316-324) runs an
   insert for every batch, and one unconditional commit follows the loop. -/

inductive DbEvent where
  | insertBatch (batch_num : Nat) : DbEvent
  | commit : DbEvent
deriving Repr, DecidableEq, BEq

def commit_periodically (batch_num : Nat) : List DbEvent :=
  if (batch_num + 1) % COMMIT_EVERY_N_BATCHES = 0 then [DbEvent.commit] else []

def loadLoopEvents : Nat → List DbEvent
  | 0 => []
  | n + 1 => loadLoopEvents n ++ DbEvent.insertBatch n :: commit_periodically n

def loadPhaseEvents (tb : Nat) : List DbEvent := loadLoopEvents tb ++ [DbEvent.commit]

def countCommits (es : List DbEvent) : Nat :=
  es.countP (fun e => match e with | DbEvent.commit => true | _ => false)

def countInserts (es : List DbEvent) : Nat :=
  es.countP (fun e => match e with | DbEvent.insertBatch _ => true | _ => false)

/- Startup configuration (lines 22-30): `SQL_SERVER_HOST` is required (Python
   truthiness: absent or empty fails), `SQL_SERVER_DB` defaults to
   "TransactionDB_UAT"; the `ValueError` fires before `pyodbc.connect`. -/

def SQL_HOST_ERROR_MSG : String :=
  "SQL_SERVER_HOST is missing. Add it to your .env file, e.g.:\nSQL_SERVER_HOST=Inteli5SSD-Laptop\\SQLEXPRESS"

structure DbConfig where
  sql_host : String
  sql_db : String
deriving Repr, DecidableEq

inductive StartupStep where
  | configError (msg : String) : StartupStep
  | connectAttempt (host db : String) : StartupStep
deriving Repr, DecidableEq

def startup (env_host env_db : Option String) : List StartupStep × Option DbConfig :=
  let sql_host := env_host.getD ""
  let sql_db := env_db.getD "TransactionDB_UAT"
  if sql_host = "" then
    ([StartupStep.configError SQL_HOST_ERROR_MSG], none)
  else
    ([StartupStep.connectAttempt sql_host sql_db], some ⟨sql_host, sql_db⟩)

/- FINAL SUMMARY (lines 330-341): the report prints the configured totals and
   `total_rows = len(categories_data) + 5000 + CUSTOMERS_TOTAL +
   PRODUCTS_TOTAL`, not the running `total_inserted` counters. -/

structure FinalSummary where
  categories_rows : Nat
  suppliers_rows : Nat
  customers_rows : Nat
  products_rows : Nat
  total_rows : Nat
deriving Repr, DecidableEq

def final_summary (customers_total products_total : Nat) : FinalSummary :=
  { categories_rows := categories_data.length
    suppliers_rows := 5000
    customers_rows := customers_total
    products_rows := products_total
    total_rows := categories_data.length + 5000 + customers_total + products_total }

/- Whole-run determinism model.  Python's Mersenne-Twister `random` module and
   the seeded Faker instance are external deterministic generators; each is
   modelled as a pure stream advanced by a linear-congruential step, seeded
   once (lines 17-19: `Faker.seed(42)`, `random.seed(42)`).  Every call site
   of the script advances the corresponding stream exactly once per drawn
   value, in source order. -/

def M64 : Nat := 2 ^ 64

def lcg (s : Nat) : Nat := (6364136223846793005 * s + 1442695040888963407) % M64

structure PyRandom where
  state : Nat
deriving Repr, DecidableEq

def PyRandom.seed (n : Nat) : PyRandom := ⟨lcg n⟩

def pyNext (g : PyRandom) : Nat × PyRandom := (g.state, ⟨lcg g.state⟩)

def py_random (g : PyRandom) : ℚ × PyRandom :=
  let (v, g') := pyNext g
  (((v % 2 ^ 53 : Nat) : ℚ) / ((2 ^ 53 : Nat) : ℚ), g')

def py_randint (a b : Nat) (g : PyRandom) : Nat × PyRandom :=
  let (v, g') := pyNext g
  (a + v % (b + 1 - a), g')

def py_choice {α : Type} [Inhabited α] (xs : List α) (g : PyRandom) : α × PyRandom :=
  let (v, g') := pyNext g
  (xs.getD (v % xs.length) default, g')

def py_uniform (a b : ℚ) (g : PyRandom) : ℚ × PyRandom :=
  let (u, g') := py_random g
  (a + (b - a) * u, g')

/- Model of the external seeded fake-value generator (Faker): a second pure
   stream; each capability returns a value computed deterministically from the
   drawn state.  The concrete value shapes are placeholders for the external
   library's output; only determinism and call order matter. -/

structure FakerState where
  state : Nat
deriving Repr, DecidableEq

def FakerState.seed (n : Nat) : FakerState := ⟨lcg (n + 1)⟩

def fakeNext (f : FakerState) : Nat × FakerState := (f.state, ⟨lcg f.state⟩)

def fake_name (f : FakerState) : String × FakerState :=
  let (v, f') := fakeNext f
  ("Given" ++ toString (v % 1000) ++ " Family" ++ toString (v % 977), f')

def fake_email (f : FakerState) : String × FakerState :=
  let (v, f') := fakeNext f
  ("user" ++ toString (v % 100000) ++ "@example.org", f')

def fake_company (f : FakerState) : String × FakerState :=
  let (v, f') := fakeNext f
  ("Company" ++ toString (v % 10000) ++ (if v % 3 = 0 then ", Inc." else ""), f')

def fake_bs (f : FakerState) : String × FakerState :=
  let (v, f') := fakeNext f
  ("buzzword" ++ toString (v % 500) ++ " integrated markets", f')

def fake_last_name (f : FakerState) : String × FakerState :=
  let (v, f') := fakeNext f
  ("Family" ++ toString (v % 997), f')

def fake_phone_number (f : FakerState) : String × FakerState :=
  let (v, f') := fakeNext f
  ("+1-555-" ++ toString (v % 10000000), f')

def fake_country (f : FakerState) : String × FakerState :=
  let (v, f') := fakeNext f
  ("Country" ++ toString (v % 249), f')

def fake_date_time_between (startS endS : String) (f : FakerState) : Int × FakerState :=
  let (v, f') := fakeNext f
  (Int.ofNat ((v + startS.length + endS.length) % 2 ^ 31), f')

/- `generate_supplier_name` (lines 76-88), call-for-call. -/
def generate_supplier_name (g : PyRandom) (f : FakerState) : String × PyRandom × FakerState :=
  let (company_type, g1) := py_choice ["company", "business", "combined"] g
  if company_type = "company" then
    let (c, f1) := fake_company f
    let base := ((c.replace ", Inc." "").replace ", LLC" "").replace ", Ltd" ""
    let (suffix, g2) := py_choice SUPPLIER_SUFFIXES g1
    ((base ++ " " ++ suffix).trim, g2, f1)
  else if company_type = "business" then
    let (bs, f1) := fake_bs f
    let (st, g2) := py_choice SUPPLIER_TYPES g1
    let base := (pySplit (pyTitle bs)).headD "" ++ " " ++ st
    let (suffix, g3) := py_choice SUPPLIER_SUFFIXES g2
    ((base ++ " " ++ suffix).trim, g3, f1)
  else
    let (ln, f1) := fake_last_name f
    let (st, g2) := py_choice SUPPLIER_TYPES g1
    let base := ln ++ " " ++ st
    let (suffix, g3) := py_choice SUPPLIER_SUFFIXES g2
    ((base ++ " " ++ suffix).trim, g3, f1)

/- Supplier phase (lines 162-166): first the 5,000-name comprehension, then
   the rows comprehension drawing name/country/phone per supplier. -/

def supplier_names_loop : Nat → PyRandom → FakerState → List String × PyRandom × FakerState
  | 0, g, f => ([], g, f)
  | n + 1, g, f =>
    let r := generate_supplier_name g f
    let rest := supplier_names_loop n r.2.1 r.2.2
    (r.1 :: rest.1, rest.2)

def supplier_rows_loop : List String → FakerState → List SupplierRow × FakerState
  | [], f => ([], f)
  | nm :: rest, f =>
    let (cn, f1) := fake_name f
    let (co, f2) := fake_country f1
    let (ph, f3) := fake_phone_number f2
    let (tail, f4) := supplier_rows_loop rest f3
    ({ supplier_name := nm, contact_name := cn,
       country := pyTake co 100, phone := pyTake ph 20 } :: tail, f4)

/- One customer row drawn from the live streams (lines 204-241), preserving
   the source's conditional call order exactly. -/
def customer_row_stream (g : PyRandom) (f : FakerState) :
    CustomerRow × PyRandom × FakerState :=
  let (r1, g1) := py_random g
  let nameEmail : Option String × String × PyRandom × FakerState :=
    if r1 < 5 / 1000 then
      let (e, f1) := fake_email f
      (none, e, g1, f1)
    else
      let (nm, f1) := fake_name f
      let name_parts := pySplit (pyLower nm)
      if 2 ≤ name_parts.length then
        let first_name := name_parts.headD ""
        let last_name := name_parts.getLastD ""
        let (r2, g2) := py_random g1
        if r2 < 1 / 100 then
          (some nm, first_name ++ "." ++ last_name ++ "@invalid", g2, f1)
        else
          let (domain, g3) := py_choice EMAIL_DOMAINS g2
          (some nm, first_name ++ "." ++ last_name ++ "@" ++ domain, g3, f1)
      else
        let (e, f2) := fake_email f1
        (some nm, e, g1, f2)
  let (customer_name, email, ga, fa) := nameEmail
  let (r3, gb) := py_random ga
  let (created_date, fb) :=
    if r3 < 1 / 100 then fake_date_time_between "+1d" "+30d" fa
    else fake_date_time_between "-5y" "now" fa
  let (ph, fc) := fake_phone_number fb
  let (co, fd) := fake_country fc
  let (act, gc) := py_choice [(0 : Nat), 1] gb
  ({ customer_name := customer_name, email := email, phone := pyTake ph 20,
     country := pyTake co 100, created_date := created_date, is_active := act },
   gc, fd)

/- One product row drawn from the live streams (lines 284-314). -/
def product_row_stream (i : Nat) (g : PyRandom) (f : FakerState) :
    ProductRow × PyRandom × FakerState :=
  let (r1, g1) := py_random g
  let product_name :=
    if r1 < 2 / 1000 then none
    else some (PRODUCT_NAMES.getD (i % PRODUCT_NAMES.length) "")
  let (r2, g2) := py_random g1
  let (unit_price, g3) :=
    if r2 < 5 / 1000 then
      let (u, g') := py_uniform 10 1000 g2
      (-u, g')
    else py_uniform 5 2000 g2
  let (r3, g4) := py_random g3
  let (stock_quantity, g5) :=
    if r3 < 1 / 100 then
      let (v, g') := py_randint 1 100 g4
      (-(v : Int), g')
    else
      let (v, g') := py_randint 0 1000 g4
      ((v : Int), g')
  let (supplier_id, g6) := py_randint 1 6000 g5
  let (category_id, g7) := py_randint 1 8 g6
  let (created_date, f1) := fake_date_time_between "-3y" "now" f
  ({ product_name := product_name, category_id := category_id,
     supplier_id := supplier_id, unit_price := unit_price,
     stock_quantity := stock_quantity, created_date := created_date },
   g7, f1)

/- Batched loops over the streams: `rows_loop` is the inner
   `for i in range(BATCH_SIZE)` body, `batches_loop` the outer batch loop. -/

def rows_loop {α : Type}
    (rowFn : Nat → PyRandom → FakerState → α × PyRandom × FakerState) :
    Nat → Nat → PyRandom → FakerState → List α × PyRandom × FakerState
  | _, 0, g, f => ([], g, f)
  | i, n + 1, g, f =>
    let (row, g1, f1) := rowFn i g f
    let (rest, g2, f2) := rows_loop rowFn (i + 1) n g1 f1
    (row :: rest, g2, f2)

def batches_loop {α : Type}
    (rowFn : Nat → PyRandom → FakerState → α × PyRandom × FakerState) :
    Nat → Nat → PyRandom → FakerState → List (List α) × PyRandom × FakerState
  | 0, _, g, f => ([], g, f)
  | n + 1, bs, g, f =>
    let (batch, g1, f1) := rows_loop rowFn 0 bs g f
    let (rest, g2, f2) := batches_loop rowFn n bs g1 f1
    (batch :: rest, g2, f2)

/- The full generation run: seed both streams once from the same constant
   (lines 17-19), then suppliers, customers, products in source order. -/
def run_generation (customers_total products_total batch_size : Nat) (seed : Nat) :
    List SupplierRow × List (List CustomerRow) × List (List ProductRow) :=
  let g0 := PyRandom.seed seed
  let f0 := FakerState.seed seed
  let (supplier_names, g1, f1) := supplier_names_loop 5000 g0 f0
  let (suppliers_data, f2) := supplier_rows_loop supplier_names f1
  let (custB, g2, f3) :=
    batches_loop (fun _ g f => customer_row_stream g f)
      (total_batches customers_total batch_size) batch_size g1 f2
  let (prodB, _, _) :=
    batches_loop product_row_stream
      (total_batches products_total batch_size) batch_size g2 f3
  (suppliers_data, custB, prodB)

/- Shared structural lemmas about the embedded loader and event stream. -/

theorem range_map_const {β : Type} (n : Nat) (c : β) :
    (List.range n).map (fun _ => c) = List.replicate n c := by
  induction n with
  | zero => rfl
  | succ n ih => rw [List.range_succ, List.map_append, ih, List.replicate_succ']; rfl

theorem customers_batch_length (bs : Nat) (d : Nat → CustomerDraws) :
    (customers_batch bs d).length = bs := by
  simp [customers_batch]

theorem customers_batches_map_length (t bs : Nat) (d : Nat → Nat → CustomerDraws) :
    (customers_batches t bs d).map List.length = List.replicate (t / bs) bs := by
  rw [customers_batches, List.map_map, total_batches]
  have h : (List.length ∘ fun bn => customers_batch bs (d bn)) = fun _ => bs := by
    funext bn
    exact customers_batch_length bs (d bn)
  rw [h, range_map_const]

theorem customers_total_inserted_eq (t bs : Nat) (d : Nat → Nat → CustomerDraws) :
    customers_total_inserted t bs d = (t / bs) * bs := by
  rw [customers_total_inserted, customers_batches_map_length, List.sum_replicate, smul_eq_mul]

theorem products_batch_length (bs : Nat) (d : Nat → ProductDraws) :
    (products_batch bs d).length = bs := by
  simp [products_batch]

theorem products_batches_map_length (t bs : Nat) (d : Nat → Nat → ProductDraws) :
    (products_batches t bs d).map List.length = List.replicate (t / bs) bs := by
  rw [products_batches, List.map_map, total_batches]
  have h : (List.length ∘ fun bn => products_batch bs (d bn)) = fun _ => bs := by
    funext bn
    exact products_batch_length bs (d bn)
  rw [h, range_map_const]

theorem products_total_inserted_eq (t bs : Nat) (d : Nat → Nat → ProductDraws) :
    products_total_inserted t bs d = (t / bs) * bs := by
  rw [products_total_inserted, products_batches_map_length, List.sum_replicate, smul_eq_mul]

theorem countCommits_append (l1 l2 : List DbEvent) :
    countCommits (l1 ++ l2) = countCommits l1 + countCommits l2 := by
  simp [countCommits, List.countP_append]

theorem countInserts_append (l1 l2 : List DbEvent) :
    countInserts (l1 ++ l2) = countInserts l1 + countInserts l2 := by
  simp [countInserts, List.countP_append]

theorem countCommits_commit_periodically (n : Nat) :
    countCommits (commit_periodically n) = if (n + 1) % 10 = 0 then 1 else 0 := by
  by_cases h : (n + 1) % 10 = 0 <;>
    simp [commit_periodically, COMMIT_EVERY_N_BATCHES, countCommits, h]

theorem countInserts_commit_periodically (n : Nat) :
    countInserts (commit_periodically n) = 0 := by
  by_cases h : (n + 1) % 10 = 0 <;>
    simp [commit_periodically, COMMIT_EVERY_N_BATCHES, countInserts, h]

theorem countCommits_loadLoopEvents (n : Nat) :
    countCommits (loadLoopEvents n) = n / 10 := by
  induction n with
  | zero => rfl
  | succ n ih =>
    have h1 : loadLoopEvents (n + 1)
        = loadLoopEvents n ++ ([DbEvent.insertBatch n] ++ commit_periodically n) := rfl
    rw [h1, countCommits_append, countCommits_append, countCommits_commit_periodically, ih]
    have h2 : countCommits [DbEvent.insertBatch n] = 0 := rfl
    rw [h2]
    by_cases h : (n + 1) % 10 = 0 <;> simp [h] <;> omega

theorem countInserts_loadLoopEvents (n : Nat) :
    countInserts (loadLoopEvents n) = n := by
  induction n with
  | zero => rfl
  | succ n ih =>
    have h1 : loadLoopEvents (n + 1)
        = loadLoopEvents n ++ ([DbEvent.insertBatch n] ++ commit_periodically n) := rfl
    rw [h1, countInserts_append, countInserts_append, countInserts_commit_periodically, ih]
    rfl

theorem countCommits_loadPhaseEvents (tb : Nat) :
    countCommits (loadPhaseEvents tb) = tb / 10 + 1 := by
  rw [loadPhaseEvents, countCommits_append, countCommits_loadLoopEvents]
  rfl

theorem countInserts_loadPhaseEvents (tb : Nat) :
    countInserts (loadPhaseEvents tb) = tb := by
  rw [loadPhaseEvents, countInserts_append, countInserts_loadLoopEvents]
  rfl

theorem supplier_names_loop_length (n : Nat) :
    ∀ (g : PyRandom) (f : FakerState), (supplier_names_loop n g f).1.length = n := by
  induction n with
  | zero => intro g f; rfl
  | succ n ih => intro g f; simp [supplier_names_loop, ih]

theorem div_mul_mod_decomposition (t bs : Nat) :
    (t = t / bs * bs ↔ t % bs = 0) ∧ t = t / bs * bs + t % bs := by
  have h0 : t / bs * bs + t % bs = t := by
    rw [Nat.mul_comm]
    exact Nat.div_add_mod t bs
  obtain ⟨A, hA⟩ : ∃ A, t / bs * bs = A := ⟨_, rfl⟩
  obtain ⟨m, hm⟩ : ∃ m, t % bs = m := ⟨_, rfl⟩
  rw [hA, hm] at h0 ⊢
  omega

/-- C1: for every target row count `total` and batch size, the loader performs
exactly `total / batch_size` (floor) batches of exactly `batch_size` generated
rows each, so the number of inserted rows is `(total / batch_size) *
batch_size` and the `total % batch_size` remainder rows are silently dropped;
in particular a customer total of 10,005 with batch size 10,000 inserts
exactly 10,000 rows. -/
theorem batch_loader_floor_division :
    ∀ (total batch_size : Nat) (draws : Nat → Nat → CustomerDraws),
      total_batches total batch_size = total / batch_size ∧
      (customers_batches total batch_size draws).length = total / batch_size ∧
      (customers_batches total batch_size draws).map List.length
        = List.replicate (total / batch_size) batch_size ∧
      customers_total_inserted total batch_size draws = (total / batch_size) * batch_size ∧
      total_batches 10005 10000 = 1 ∧
      customers_total_inserted 10005 10000 draws = 10000 := by
  intro total bs draws
  refine ⟨rfl, ?_, customers_batches_map_length total bs draws,
    customers_total_inserted_eq total bs draws, rfl, ?_⟩
  · simp [customers_batches, total_batches]
  · rw [customers_total_inserted_eq]

/-- C5: every generated product row has `category_id` in the valid Category ID
range [1, 8], for all draw outcomes (so regardless of which other defects
fire). -/
theorem category_id_always_valid :
    ∀ (i : Nat) (d : ProductDraws),
      1 ≤ (products_row i d).category_id ∧ (products_row i d).category_id ≤ 8 := by
  intro i d
  have h := d.category_draw.isLt
  constructor
  · simp [products_row]
  · simp [products_row]
    omega

/-- C6: during batched loading a periodic commit occurs after batch
`batch_num` exactly when `batch_num + 1` is a multiple of 10, one extra commit
always follows the final batch, so a loading phase for `total` rows with the
given batch size performs `(total / batch_size) / 10 + 1` commits; with
total = batch size = 10,000 the phase performs exactly 1 insert batch and
exactly 1 commit. -/
theorem commit_schedule_floor :
    ∀ (batch_num tb total batch_size : Nat),
      (DbEvent.commit ∈ commit_periodically batch_num ↔ (batch_num + 1) % 10 = 0) ∧
      loadPhaseEvents tb = loadLoopEvents tb ++ [DbEvent.commit] ∧
      countCommits (loadPhaseEvents tb) = tb / 10 + 1 ∧
      countCommits (loadPhaseEvents (total_batches total batch_size))
        = total / batch_size / 10 + 1 ∧
      countInserts (loadPhaseEvents (total_batches 10000 10000)) = 1 ∧
      countCommits (loadPhaseEvents (total_batches 10000 10000)) = 1 := by
  intro batch_num tb total batch_size
  refine ⟨?_, rfl, countCommits_loadPhaseEvents tb, countCommits_loadPhaseEvents _, ?_, ?_⟩
  · by_cases h : (batch_num + 1) % 10 = 0 <;>
      simp [commit_periodically, COMMIT_EVERY_N_BATCHES, h]
  · rw [countInserts_loadPhaseEvents]
    rfl
  · rw [countCommits_loadPhaseEvents]
    rfl

theorem products_batch_getD (bs : Nat) (draws : Nat → ProductDraws) (j : Nat) (h : j < bs) :
    (products_batch bs draws).getD j default = products_row j (draws j) := by
  rw [products_batch, List.getD_eq_getElem?_getD, List.getElem?_map, List.getElem?_range h]
  rfl

/-- C2: for every generated customer row where the name defect does not fire,
the drawn full name splits on whitespace into at least 2 tokens, and the email
defect does not fire, the email is first.last@domain with first/last the
first/last tokens of the lower-cased name and domain drawn from the fixed
6-element provider set; name "john smith" with the domain draw landing on
"gmail.com" yields exactly "john.smith@gmail.com". -/
theorem customer_email_from_name :
    EMAIL_DOMAINS.length = 6 ∧
    ∀ (d : CustomerDraws),
      ¬(d.r_name < 5 / 1000) →
      2 ≤ (pySplit (pyLower d.full_name)).length →
      ¬(d.r_email < 1 / 100) →
      ((customers_row d).email =
        (pySplit (pyLower d.full_name)).headD "" ++ "." ++
          (pySplit (pyLower d.full_name)).getLastD "" ++ "@" ++
          EMAIL_DOMAINS.getD d.domain_idx.val "" ∧
      EMAIL_DOMAINS.getD d.domain_idx.val "" ∈ EMAIL_DOMAINS ∧
      (d.full_name = "john smith" → d.domain_idx.val = 0 →
        (customers_row d).email = "john.smith@gmail.com")) := by
  constructor
  · rfl
  intro d h1 h2 h3
  have hemail : (customers_row d).email =
      (pySplit (pyLower d.full_name)).headD "" ++ "." ++
        (pySplit (pyLower d.full_name)).getLastD "" ++ "@" ++
        EMAIL_DOMAINS.getD d.domain_idx.val "" := by
    simp only [customers_row, if_neg h1, if_pos h2, if_neg h3]
  have hmem : ∀ j : Fin 6, EMAIL_DOMAINS.getD j.val "" ∈ EMAIL_DOMAINS := by decide
  refine ⟨hemail, hmem d.domain_idx, ?_⟩
  intro hn hd
  rw [hemail, hn, hd]
  decide

/-- Witness for C2: concrete draws with name "john smith", no name defect, no
email defect, and the domain draw at index 0 give "john.smith@gmail.com". -/
theorem customer_email_from_name_witness :
    (customers_row ⟨1, "", "john smith", 1, 0, "", 1, 0, 0, "", "", 0⟩).email
      = "john.smith@gmail.com" := by
  have h := customer_email_from_name.2 ⟨1, "", "john smith", 1, 0, "", 1, 0, 0, "", "", 0⟩
    (by norm_num) (by decide) (by norm_num)
  exact h.2.2 rfl rfl

/-- C3: the product-name catalog has 25 entries; every product row at index i
within a batch whose name defect does not fire gets catalog entry i mod 25, so
indices 0 and 25 of the same batch receive the same name, index 0 receives the
first catalog entry, and a batch repeats the 25 names in order. -/
theorem product_name_cycle :
    PRODUCT_NAMES.length = 25 ∧
    (∀ (i : Nat) (d : ProductDraws), ¬(d.r_name < 2 / 1000) →
      (products_row i d).product_name = some (PRODUCT_NAMES.getD (i % 25) "")) ∧
    (∀ (bs : Nat) (draws : Nat → ProductDraws) (i : Nat),
      i + 25 < bs →
      ¬((draws i).r_name < 2 / 1000) → ¬((draws (i + 25)).r_name < 2 / 1000) →
      ((products_batch bs draws).getD (i + 25) default).product_name
        = ((products_batch bs draws).getD i default).product_name) ∧
    (∀ d : ProductDraws, ¬(d.r_name < 2 / 1000) →
      (products_row 0 d).product_name = some "Wireless Bluetooth Headphones") ∧
    (∀ d : ProductDraws, ¬(d.r_name < 2 / 1000) →
      (products_row 25 d).product_name = (products_row 0 d).product_name) := by
  have hname : ∀ (i : Nat) (d : ProductDraws), ¬(d.r_name < 2 / 1000) →
      (products_row i d).product_name = some (PRODUCT_NAMES.getD (i % 25) "") := by
    intro i d h
    simp only [products_row, if_neg h]
    rfl
  refine ⟨rfl, hname, ?_, ?_, ?_⟩
  · intro bs draws i hlt h1 h2
    rw [products_batch_getD bs draws (i + 25) hlt, products_batch_getD bs draws i (by omega),
      hname (i + 25) _ h2, hname i _ h1, Nat.add_mod_right]
  · intro d h
    rw [hname 0 d h]
    rfl
  · intro d h
    rw [hname 25 d h, hname 0 d h]

/-- Witness for C3: a concrete non-defective draw at index 0 receives the
first catalog name. -/
theorem product_name_cycle_witness :
    (products_row 0 ⟨1, 1, 0, 1, 0, 0, 0, 0, 0⟩).product_name
      = some "Wireless Bluetooth Headphones" :=
  product_name_cycle.2.2.2.1 ⟨1, 1, 0, 1, 0, 0, 0, 0, 0⟩ (by norm_num)

/-- C4: every generated product row has supplier_id in [1, 6000]; of the 6000
equally likely randint values the orphaned ones (those > 5000, dangling past
the 5,000 generated suppliers) are exactly Icc 5001 6000, i.e. 1000 of 6000
(probability 1000/6000); the supplier phase generates exactly 5,000 supplier
names. -/
theorem supplier_id_range_and_orphan_rate :
    (∀ (i : Nat) (d : ProductDraws),
      1 ≤ (products_row i d).supplier_id ∧ (products_row i d).supplier_id ≤ 6000 ∧
      (products_row i d).supplier_id ∈ randintSet 1 6000) ∧
    (randintSet 1 6000).filter (fun s => 5000 < s) = Finset.Icc 5001 6000 ∧
    ((randintSet 1 6000).filter (fun s => 5000 < s)).card = 1000 ∧
    (randintSet 1 6000).card = 6000 ∧
    (((randintSet 1 6000).filter (fun s => 5000 < s)).card : ℚ)
      / ((randintSet 1 6000).card : ℚ) = 1000 / 6000 ∧
    (∀ (g : PyRandom) (f : FakerState), (supplier_names_loop 5000 g f).1.length = 5000) := by
  have hfil : (randintSet 1 6000).filter (fun s => 5000 < s) = Finset.Icc 5001 6000 := by
    ext x
    simp only [randintSet, Finset.mem_filter, Finset.mem_Icc]
    omega
  have hcard1 : ((randintSet 1 6000).filter (fun s => 5000 < s)).card = 1000 := by
    rw [hfil, Nat.card_Icc]
  have hcard2 : (randintSet 1 6000).card = 6000 := by
    rw [randintSet, Nat.card_Icc]
  refine ⟨?_, hfil, hcard1, hcard2, ?_, fun g f => supplier_names_loop_length 5000 g f⟩
  · intro i d
    have h := d.supplier_draw.isLt
    refine ⟨?_, ?_, ?_⟩
    · simp only [products_row]
      omega
    · simp only [products_row]
      omega
    · simp only [products_row, randintSet, Finset.mem_Icc]
      omega
  · rw [hcard1, hcard2]
    norm_num

/-- C7: if the required host setting is absent, startup produces only the
descriptive configuration error (which names SQL_SERVER_HOST and shows an
example value) and never reaches a connection attempt; with a host present and
the optional database name absent, the database defaults to
"TransactionDB_UAT". -/
theorem missing_host_fails_fast :
    ∀ (env_db : Option String) (h : String),
      (startup none env_db).1 = [StartupStep.configError SQL_HOST_ERROR_MSG] ∧
      (startup none env_db).2 = none ∧
      (∀ hs db, StartupStep.connectAttempt hs db ∉ (startup none env_db).1) ∧
      strContains SQL_HOST_ERROR_MSG "SQL_SERVER_HOST" = true ∧
      strContains SQL_HOST_ERROR_MSG "SQL_SERVER_HOST=Inteli5SSD-Laptop\\SQLEXPRESS" = true ∧
      (h ≠ "" → startup (some h) none
        = ([StartupStep.connectAttempt h "TransactionDB_UAT"],
            some ⟨h, "TransactionDB_UAT"⟩)) := by
  intro env_db h
  refine ⟨rfl, rfl, ?_, by decide, by decide, ?_⟩
  · intro hs db hmem
    rw [show (startup none env_db).1 = [StartupStep.configError SQL_HOST_ERROR_MSG] from rfl]
      at hmem
    simp at hmem
  · intro hne
    simp [startup, hne]

/-- Witness for C7: a present, nonempty host with no database setting connects
to the default UAT database. -/
theorem missing_host_fails_fast_witness :
    startup (some "myhost") none
      = ([StartupStep.connectAttempt "myhost" "TransactionDB_UAT"],
          some ⟨"myhost", "TransactionDB_UAT"⟩) :=
  (missing_host_fails_fast none "myhost").2.2.2.2.2 (by decide)

/-- C8: with the seed constant applied once at process start to both the
uniform generator and the fake-value generator and no reseeding mid-run, two
runs making the same sequence of generator calls produce identical row tuples
for every table. -/
theorem run_generation_deterministic :
    ∀ (customers_total products_total batch_size seed1 seed2 : Nat),
      seed1 = seed2 →
      run_generation customers_total products_total batch_size seed1
        = run_generation customers_total products_total batch_size seed2 := by
  intro ct pt bs s1 s2 h
  rw [h]

/-- Witness for C8: two runs at the script's seed constant 42 coincide. -/
theorem run_generation_deterministic_witness :
    run_generation 20 20 10 42 = run_generation 20 20 10 42 :=
  run_generation_deterministic 20 20 10 42 42 rfl

/-- C9 (amended): for every product row whose price unit draw u lies in [0,1)
(the range of Python's random.random()), unit_price lies in the half-open
interval (-1000, -10] when the price defect fires and in [5, 2000) otherwise;
it is never zero, never in the open interval (-10, 5), and is negative exactly
when the price-defect branch was taken. -/
theorem unit_price_ranges :
    ∀ (i : Nat) (d : ProductDraws), 0 ≤ d.price_u → d.price_u < 1 →
      ((d.r_price < 5 / 1000 →
        -1000 < (products_row i d).unit_price ∧ (products_row i d).unit_price ≤ -10) ∧
      (¬(d.r_price < 5 / 1000) →
        5 ≤ (products_row i d).unit_price ∧ (products_row i d).unit_price < 2000) ∧
      (products_row i d).unit_price ≠ 0 ∧
      ¬(-10 < (products_row i d).unit_price ∧ (products_row i d).unit_price < 5) ∧
      ((products_row i d).unit_price < 0 ↔ d.r_price < 5 / 1000)) := by
  intro i d hu0 hu1
  by_cases h : d.r_price < 5 / 1000
  · have hp : (products_row i d).unit_price = -(10 + 990 * d.price_u) := by
      simp only [products_row, if_pos h, pyUniformVal]
      norm_num
    have h1 : -1000 < (products_row i d).unit_price := by
      rw [hp]
      nlinarith
    have h2 : (products_row i d).unit_price ≤ -10 := by
      rw [hp]
      nlinarith
    refine ⟨fun _ => ⟨h1, h2⟩, fun hc => absurd h hc, ?_, ?_, ?_⟩
    · intro heq
      rw [heq] at h2
      norm_num at h2
    · rintro ⟨ha, _⟩
      linarith
    · exact ⟨fun _ => h, fun _ => by linarith⟩
  · have hp : (products_row i d).unit_price = 5 + 1995 * d.price_u := by
      simp only [products_row, if_neg h, pyUniformVal]
      norm_num
    have h1 : 5 ≤ (products_row i d).unit_price := by
      rw [hp]
      nlinarith
    have h2 : (products_row i d).unit_price < 2000 := by
      rw [hp]
      nlinarith
    refine ⟨fun hc => absurd hc h, fun _ => ⟨h1, h2⟩, ?_, ?_, ?_⟩
    · intro heq
      rw [heq] at h1
      norm_num at h1
    · rintro ⟨_, hb⟩
      linarith
    · constructor
      · intro hneg
        linarith
      · intro hc
        exact absurd hc h

/-- C9 counterexample: with the price defect firing and unit draw exactly 0
(Python's random.random() can return 0.0, so random.uniform(10, 1000) can
return exactly 10.0) the unit price is exactly -10, which falls outside the
claimed open interval (-1000, -10) and inside the claimed never-hit interval
[-10, 5]. -/
theorem unit_price_open_interval_counterexample :
    (⟨1, 0, 0, 1, 0, 0, 0, 0, 0⟩ : ProductDraws).r_price < 5 / 1000 ∧
    (0 : ℚ) ≤ (⟨1, 0, 0, 1, 0, 0, 0, 0, 0⟩ : ProductDraws).price_u ∧
    (⟨1, 0, 0, 1, 0, 0, 0, 0, 0⟩ : ProductDraws).price_u < 1 ∧
    (products_row 0 ⟨1, 0, 0, 1, 0, 0, 0, 0, 0⟩).unit_price = -10 ∧
    ¬((products_row 0 ⟨1, 0, 0, 1, 0, 0, 0, 0, 0⟩).unit_price < -10) ∧
    -10 ≤ (products_row 0 ⟨1, 0, 0, 1, 0, 0, 0, 0, 0⟩).unit_price ∧
    (products_row 0 ⟨1, 0, 0, 1, 0, 0, 0, 0, 0⟩).unit_price ≤ 5 := by
  norm_num [products_row, pyUniformVal]

/-- Witness for C9 (amended): the normal-price branch at unit draw 1/2. -/
theorem unit_price_ranges_witness :
    5 ≤ (products_row 0 ⟨1, 1, 1/2, 1, 0, 0, 0, 0, 0⟩).unit_price ∧
    (products_row 0 ⟨1, 1, 1/2, 1, 0, 0, 0, 0, 0⟩).unit_price < 2000 :=
  ((unit_price_ranges 0 ⟨1, 1, 1/2, 1, 0, 0, 0, 0, 0⟩ (by norm_num) (by norm_num)).2.1)
    (by norm_num)

/-- C10: the final summary reports the configured totals (and their sum plus 8
categories and 5,000 suppliers), not the running inserted-row counters; the
reported count equals the rows actually inserted iff the configured total is
an exact multiple of the batch size, and otherwise overstates it by
`total % batch_size`. -/
theorem final_summary_configured_totals :
    ∀ (ct pt bs : Nat) (cd : Nat → Nat → CustomerDraws) (pd : Nat → Nat → ProductDraws),
      final_summary ct pt = ⟨8, 5000, ct, pt, 8 + 5000 + ct + pt⟩ ∧
      ((final_summary ct pt).customers_rows = customers_total_inserted ct bs cd ↔
        ct % bs = 0) ∧
      (final_summary ct pt).customers_rows = customers_total_inserted ct bs cd + ct % bs ∧
      ((final_summary ct pt).products_rows = products_total_inserted pt bs pd ↔
        pt % bs = 0) ∧
      (final_summary ct pt).products_rows = products_total_inserted pt bs pd + pt % bs := by
  intro ct pt bs cd pd
  have hc := div_mul_mod_decomposition ct bs
  have hp := div_mul_mod_decomposition pt bs
  refine ⟨rfl, ?_, ?_, ?_, ?_⟩
  · rw [show (final_summary ct pt).customers_rows = ct from rfl, customers_total_inserted_eq]
    exact hc.1
  · rw [show (final_summary ct pt).customers_rows = ct from rfl, customers_total_inserted_eq]
    exact hc.2
  · rw [show (final_summary ct pt).products_rows = pt from rfl, products_total_inserted_eq]
    exact hp.1
  · rw [show (final_summary ct pt).products_rows = pt from rfl, products_total_inserted_eq]
    exact hp.2
